import Mathlib

/-!
Verification of the agentforce-voice relay (app.py): the credential
extraction heuristic (`extract_livekit_creds` and its helpers), the
session-start flow, and the per-device command relay
(`enqueue_command` / `poll_commands`).

JSON values are modelled by the inductive `Json`; Python dicts become
association lists in document (insertion) order, which is how the JSON
module and Python 3.7+ dicts behave. Machine-level concerns (HTTP, real
time) are modelled by oracles and bounded check counts where a claim
needs them.
-/

namespace AgentVoice

/-- JSON value as produced by response.json(): Python dicts keep insertion
order, so objects are ordered association lists. Numbers are modelled as
integers; no claim depends on numeric values. -/
inductive Json where
  | null : Json
  | bool (b : Bool) : Json
  | num (n : Int) : Json
  | str (s : String) : Json
  | arr (elems : List Json) : Json
  | obj (fields : List (String × Json)) : Json
deriving Repr

mutual
/-- Structural boolean equality on JSON values (the deriving handler does
not treat the nested list positions, so it is spelled out). -/
def jeq : Json → Json → Bool
  | .null, .null => true
  | .bool a, .bool b => a = b
  | .num a, .num b => a = b
  | .str a, .str b => a = b
  | .arr a, .arr b => jeqList a b
  | .obj a, .obj b => jeqFields a b
  | _, _ => false

/-- Structural equality on element lists. -/
def jeqList : List Json → List Json → Bool
  | [], [] => true
  | x :: xs, y :: ys => jeq x y && jeqList xs ys
  | _, _ => false

/-- Structural equality on field lists. -/
def jeqFields : List (String × Json) → List (String × Json) → Bool
  | [], [] => true
  | (k, v) :: xs, (k', v') :: ys => k = k' && jeq v v' && jeqFields xs ys
  | _, _ => false
end

mutual
theorem jeq_iff : ∀ a b : Json, jeq a b = true ↔ a = b
  | .null, .null => by simp [jeq]
  | .bool _, .bool _ => by simp [jeq]
  | .num _, .num _ => by simp [jeq]
  | .str _, .str _ => by simp [jeq]
  | .arr x, .arr y => by simp [jeq, jeqList_iff x y]
  | .obj x, .obj y => by simp [jeq, jeqFields_iff x y]
  | .null, .bool _ | .null, .num _ | .null, .str _ | .null, .arr _
  | .null, .obj _ | .bool _, .null | .bool _, .num _ | .bool _, .str _
  | .bool _, .arr _ | .bool _, .obj _ | .num _, .null | .num _, .bool _
  | .num _, .str _ | .num _, .arr _ | .num _, .obj _ | .str _, .null
  | .str _, .bool _ | .str _, .num _ | .str _, .arr _ | .str _, .obj _
  | .arr _, .null | .arr _, .bool _ | .arr _, .num _ | .arr _, .str _
  | .arr _, .obj _ | .obj _, .null | .obj _, .bool _ | .obj _, .num _
  | .obj _, .str _ | .obj _, .arr _ => by simp [jeq]

theorem jeqList_iff : ∀ xs ys : List Json, jeqList xs ys = true ↔ xs = ys
  | [], [] => by simp [jeqList]
  | x :: xs, y :: ys => by
      simp [jeqList, jeq_iff x y, jeqList_iff xs ys]
  | [], _ :: _ => by simp [jeqList]
  | _ :: _, [] => by simp [jeqList]

theorem jeqFields_iff :
    ∀ xs ys : List (String × Json), jeqFields xs ys = true ↔ xs = ys
  | [], [] => by simp [jeqFields]
  | (k, v) :: xs, (k', v') :: ys => by
      simp [jeqFields, jeq_iff v v', jeqFields_iff xs ys, and_assoc]
  | [], _ :: _ => by simp [jeqFields]
  | _ :: _, [] => by simp [jeqFields]
end

instance : DecidableEq Json := fun a b =>
  decidable_of_iff (jeq a b = true) (jeq_iff a b)

/-- Characters of the URL-safe base64 alphabet, i.e. the character class
[A-Za-z0-9-_] of the JWT regex in `_find_first_jwt` (the hyphen after 0-9
is literal there, not a range). -/
def isB64UrlChar (c : Char) : Bool :=
  ('A' ≤ c && c ≤ 'Z') || ('a' ≤ c && c ≤ 'z') || ('0' ≤ c && c ≤ '9')
    || c = '-' || c = '_'

/-- Split a character list on '.' exactly as Python str.split(".") does:
"a..b" gives ["a", "", "b"], "" gives [""]. -/
def splitDots : List Char → List (List Char)
  | [] => [[]]
  | c :: rest =>
    if c = '.' then [] :: splitDots rest
    else
      match splitDots rest with
      | seg :: segs => (c :: seg) :: segs
      | [] => [[c]]

/-- A non-empty run of URL-safe base64 characters: one regex segment
[A-Za-z0-9-_]+ . -/
def isSegment (seg : List Char) : Bool :=
  !seg.isEmpty && seg.all isB64UrlChar

/-- Full match of the JWT regex body
[A-Za-z0-9-_]+ . [A-Za-z0-9-_]+ . [A-Za-z0-9-_]+ against the whole
character list. The segments exclude '.', so the decomposition is the
dot-split. -/
def strictJwtShapeL (l : List Char) : Bool :=
  match splitDots l with
  | [a, b, c] => isSegment a && isSegment b && isSegment c
  | _ => false

/-- Full regex match on a string: three non-empty dot-separated base64url
segments and nothing else. -/
def strictJwtShape (s : String) : Bool :=
  strictJwtShapeL s.toList

/-- Python re.match of r'^seg\.seg\.seg$': the $ anchor matches at the end
of the string or just before one final newline, so the regex also accepts
a full match followed by a single trailing '\n'. -/
def pyJwtMatchL (l : List Char) : Bool :=
  strictJwtShapeL l ||
    (match l.getLast? with
     | some c => c = '\n' && strictJwtShapeL l.dropLast
     | none => false)

/-- The test `jwt_re.match(obj)` of `_find_first_jwt`, on strings. -/
def pyJwtMatch (s : String) : Bool :=
  pyJwtMatchL s.toList

/-- Number of '.' characters in a string, Python t.count("."). -/
def dotCount (s : String) : Nat :=
  s.toList.count '.'

/-- Whether the second list begins with the first (character lists). -/
def leadsWith : List Char → List Char → Bool
  | [], _ => true
  | _ :: _, [] => false
  | c :: cs, d :: ds => c = d && leadsWith cs ds

/-- Python s.startswith(pat). -/
def pyStartsWith (s pat : String) : Bool :=
  leadsWith pat.toList s.toList

/-- Python dict membership / indexing: first binding of the key (dicts
built by the JSON module have unique keys, so first = only). -/
def dictGet : List (String × Json) → String → Option Json
  | [], _ => none
  | (k, v) :: rest, key => if k = key then some v else dictGet rest key

/-- Dot-split of a path string, Python path.split("."). -/
def pathKeys (p : String) : List String :=
  (splitDots p.toList).map (fun cs => String.mk cs)

/-- Core of `_get_by_path`: walk the key list; step only when the current
value is a dict containing the key, else None. -/
def get_by_path_keys : Json → List String → Option Json
  | cur, [] => some cur
  | .obj fields, k :: rest =>
    match dictGet fields k with
    | some v => get_by_path_keys v rest
    | none => none
  | _, _ :: _ => none

/-- The source function `_get_by_path(obj, path)`. -/
def get_by_path (j : Json) (path : String) : Option Json :=
  get_by_path_keys j (pathKeys path)

mutual
/-- The source function `_find_first_jwt`: depth-first scan in document
order, dict values first-to-last, list elements in order; returns the
first string the JWT regex accepts. A matched string is non-empty, so
Python's truthiness test `if t:` is exactly "a match was found". -/
def find_first_jwt : Json → Option String
  | .obj fields => find_first_jwt_fields fields
  | .arr elems => find_first_jwt_list elems
  | .str s => if pyJwtMatch s then some s else none
  | _ => none

/-- Scan of a dict's values for `_find_first_jwt`. -/
def find_first_jwt_fields : List (String × Json) → Option String
  | [] => none
  | (_, v) :: rest =>
    match find_first_jwt v with
    | some t => some t
    | none => find_first_jwt_fields rest

/-- Scan of a list's elements for `_find_first_jwt`. -/
def find_first_jwt_list : List Json → Option String
  | [] => none
  | v :: rest =>
    match find_first_jwt v with
    | some t => some t
    | none => find_first_jwt_list rest
end

mutual
/-- The source function `_find_first_wss`: depth-first scan in document
order for the first string starting with "wss://". -/
def find_first_wss : Json → Option String
  | .obj fields => find_first_wss_fields fields
  | .arr elems => find_first_wss_list elems
  | .str s => if pyStartsWith s "wss://" then some s else none
  | _ => none

/-- Scan of a dict's values for `_find_first_wss`. -/
def find_first_wss_fields : List (String × Json) → Option String
  | [] => none
  | (_, v) :: rest =>
    match find_first_wss v with
    | some t => some t
    | none => find_first_wss_fields rest

/-- Scan of a list's elements for `_find_first_wss`. -/
def find_first_wss_list : List Json → Option String
  | [] => none
  | v :: rest =>
    match find_first_wss v with
    | some t => some t
    | none => find_first_wss_list rest
end

/-- The token path list of `extract_livekit_creds`. -/
def token_paths : List String :=
  ["room.token", "room.accessToken", "room.jwt", "roomToken", "roomJWT",
   "token", "accessToken", "jwt"]

/-- The URL path list of `extract_livekit_creds`. -/
def url_paths : List String :=
  ["endpoint", "room.url", "room.serverUrl", "room.wss", "wss", "wssUrl",
   "wsUrl", "url"]

/-- One iteration of the token path loop: the looked-up value when it is a
string with exactly two '.' characters, else nothing. -/
def tokenAtPath (j : Json) (p : String) : Option String :=
  match get_by_path j p with
  | some (.str t) => if dotCount t = 2 then some t else none
  | _ => none

/-- One iteration of the URL path loop: the looked-up value when it is a
string starting with "wss://", else nothing. -/
def urlAtPath (j : Json) (p : String) : Option String :=
  match get_by_path j p with
  | some (.str u) => if pyStartsWith u "wss://" then some u else none
  | _ => none

/-- The first token path loop of `extract_livekit_creds` (for-loop with
break). -/
def firstTokenByPaths (j : Json) : List String → Option String
  | [] => none
  | p :: rest =>
    match tokenAtPath j p with
    | some t => some t
    | none => firstTokenByPaths j rest

/-- The URL path loop of `extract_livekit_creds`. -/
def firstUrlByPaths (j : Json) : List String → Option String
  | [] => none
  | p :: rest =>
    match urlAtPath j p with
    | some u => some u
    | none => firstUrlByPaths j rest

/-- The source function `extract_livekit_creds(join_data)`: path pass then
recursive fallback for whichever field the path pass missed. A path-pass
token has two dots hence is non-empty, and a path-pass URL starts with
"wss://", so Python's `if not tok` / `if not url` are exactly "the path
pass found nothing". -/
def extract_livekit_creds (join_data : Json) : Option String × Option String :=
  let tokP := firstTokenByPaths join_data token_paths
  let urlP := firstUrlByPaths join_data url_paths
  let tok := match tokP with
    | some t => some t
    | none => find_first_jwt join_data
  let url := match urlP with
    | some u => some u
    | none => find_first_wss join_data
  (tok, url)

mutual
/-- Depth-first list of every string in a JSON value, in document order:
the reference order against which the two recursive scans are compared. -/
def jsonStrings : Json → List String
  | .obj fields => jsonStringsFields fields
  | .arr elems => jsonStringsList elems
  | .str s => [s]
  | _ => []

/-- Strings of a dict's values in order. -/
def jsonStringsFields : List (String × Json) → List String
  | [] => []
  | (_, v) :: rest => jsonStrings v ++ jsonStringsFields rest

/-- Strings of a list's elements in order. -/
def jsonStringsList : List Json → List String
  | [] => []
  | v :: rest => jsonStrings v ++ jsonStringsList rest
end

/-! Command relay: the per-device FIFO queues behind /api/control/command
and /api/control/poll. -/

/-- A queued command message, q.append({"type": command, "payload": payload});
the payload is the request's payload field, None when absent. -/
structure Msg where
  type : String
  payload : Option Json
deriving Repr, DecidableEq

/-- The process-wide COMMAND_QUEUES dict observed as a total function: a
deviceId absent from the dict behaves as the empty queue `_queue_for`
would create for it on first access. -/
def QState : Type := String → List Msg

/-- The state at process start: COMMAND_QUEUES = {}. -/
def qInit : QState := fun _ => []

/-- Replacement of one device's queue, all others untouched. -/
def setQueue (st : QState) (d : String) (q : List Msg) : QState :=
  fun d' => if d' = d then q else st d'

/-- The ASCII whitespace characters Python str.strip() removes (the
request fields here are ASCII). -/
def pyIsSpace (c : Char) : Bool :=
  c = ' ' || c = '\t' || c = '\n' || c = '\r' || c = '\x0b' || c = '\x0c'

/-- Python s.strip(): drop leading and trailing whitespace. -/
def pyStrip (s : String) : String :=
  String.mk (((s.toList.dropWhile pyIsSpace).reverse.dropWhile pyIsSpace).reverse)

/-- Python `value or default` for an optional string field: the default
replaces both a missing field (None) and an empty string, both falsy. -/
def pyOrStr (v : Option String) (dflt : String) : String :=
  match v with
  | some s => if s = "" then dflt else s
  | none => dflt

/-- The normalized device id of both control handlers:
(body.get('deviceId') or 'default-phone').strip(). -/
def normDeviceId (deviceIdRaw : Option String) : String :=
  pyStrip (pyOrStr deviceIdRaw "default-phone")

/-- Success body of the enqueue handler (the fields the claims mention). -/
structure EnqOk where
  deviceId : String
  queued : Msg
  queueDepth : Nat
deriving Repr, DecidableEq

/-- The handler `enqueue_command` of POST /api/control/command: normalize
deviceId and command, reject an empty command with the 400 response
"Missing 'command'" before touching any queue, else append the message at
the tail of the device's queue and report the new depth. -/
def enqueue_command (st : QState) (deviceIdRaw commandRaw : Option String)
    (payload : Option Json) : Except String EnqOk × QState :=
  let device_id := normDeviceId deviceIdRaw
  let command := pyStrip (pyOrStr commandRaw "")
  if command = "" then
    (.error "Missing 'command'", st)
  else
    let m : Msg := ⟨command, payload⟩
    let q := st device_id ++ [m]
    (.ok ⟨device_id, m, q.length⟩, setQueue st device_id q)

/-- The drain loop of `poll_commands`:
while q and len(cmds) < max_items: cmds.append(q.popleft()).
Returns the collected commands and what remains of the queue. -/
def drainLoop : List Msg → List Msg → Nat → List Msg × List Msg
  | [], cmds, _ => (cmds, [])
  | m :: rest, cmds, maxItems =>
    if cmds.length < maxItems then drainLoop rest (cmds ++ [m]) maxItems
    else (cmds, m :: rest)

/-- The long-poll loop of `poll_commands`: re-check the queue once per
iteration (the code sleeps 0.1 s between checks); `checks` is the number
of loop-condition checks the finite timeout allows, about
timeout_s / 0.1. When a check finds the queue non-empty, drain up to
maxItems and stop; when the checks run out, give up with no commands. No
enqueue happens during the loop in this sequential model, so the queue
argument is constant. -/
def pollWaitLoop (checks : Nat) (q : List Msg) (maxItems : Nat) :
    List Msg × List Msg :=
  match checks with
  | 0 => ([], q)
  | k + 1 =>
    if q.isEmpty then pollWaitLoop k q maxItems
    else drainLoop q [] maxItems

/-- The handler `poll_commands` of POST /api/control/poll: immediate drain;
answer at once when it produced commands or wait is false, else run the
long-poll loop. Returns the normalized device id, the commands, and the
new queue state. -/
def poll_commands (st : QState) (deviceIdRaw : Option String)
    (maxItems : Nat) (wait : Bool) (checks : Nat) :
    String × List Msg × QState :=
  let device_id := normDeviceId deviceIdRaw
  let r := drainLoop (st device_id) [] maxItems
  if !r.1.isEmpty || !wait then
    (device_id, r.1, setQueue st device_id r.2)
  else
    let r2 := pollWaitLoop checks (st device_id) maxItems
    (device_id, r2.1, setQueue st device_id r2.2)

/-- The queue mutation of the enqueue handler, for a given (already
normalized) device id: append at the tail, creating the queue if absent. -/
def enqueueMsg (d : String) (m : Msg) (st : QState) : QState :=
  setQueue st d (st d ++ [m])

/-- The queue mutation of the poll handler's immediate drain, for a given
normalized device id: remove up to n messages from the head. -/
def pollDrain (d : String) (n : Nat) (st : QState) : List Msg × QState :=
  let r := drainLoop (st d) [] n
  (r.1, setQueue st d r.2)

/-- One relay operation, for reasoning about interleavings. -/
inductive Op where
  | enq (d : String) (m : Msg)
  | poll (d : String) (n : Nat)

/-- Effect of one operation on the queues. -/
def applyOp (st : QState) : Op → QState
  | .enq d m => enqueueMsg d m st
  | .poll d n => (pollDrain d n st).2

/-- Effect of a sequence of operations. -/
def runOps (st : QState) : List Op → QState
  | [] => st
  | op :: rest => runOps (applyOp st op) rest

/-- All messages the polls of a sequence deliver for device d, in the
order they are handed out. -/
def deliveredTo (d : String) (st : QState) : List Op → List Msg
  | [] => []
  | .enq d' m :: rest => deliveredTo d (enqueueMsg d' m st) rest
  | .poll d' n :: rest =>
    (if d' = d then (pollDrain d' n st).1 else []) ++
      deliveredTo d ((pollDrain d' n st).2) rest

/-- All messages a sequence enqueues for device d, in order. -/
def enqueuedTo (d : String) : List Op → List Msg
  | [] => []
  | .enq d' m :: rest => (if d' = d then [m] else []) ++ enqueuedTo d rest
  | .poll _ _ :: rest => enqueuedTo d rest

/-- The device an operation addresses. -/
def opDevice : Op → String
  | .enq d _ => d
  | .poll d _ => d

/-! Session flow: the /api/start-session handler and its three upstream
calls. -/

/-- Tags for the three outbound HTTP calls of the flow. -/
inductive CallTag where
  | bootstrap
  | create
  | join
deriving Repr, DecidableEq

/-- Python truthiness of a JSON value: None, False, 0, "", [], {} are
falsy, everything else truthy. -/
def truthy : Json → Bool
  | .null => false
  | .bool b => b
  | .num n => n ≠ 0
  | .str s => s ≠ ""
  | .arr es => !es.isEmpty
  | .obj fs => !fs.isEmpty

/-- token_data.get(key) on a JSON response. A non-dict response makes the
Python .get raise, which the handler's catch-all turns into an error
response; either way the flow stops there, which is what matters for the
call-order claims, so the miss is folded into `none` here. -/
def jsonDictGet : Json → String → Option Json
  | .obj fields, key => dictGet fields key
  | _, _ => none

/-- Whether the looked-up value exists and is truthy. -/
def truthyOpt : Option Json → Bool
  | some v => truthy v
  | none => false

/-- The access-token check of start_session:
token_data.get("access_token") or token_data.get("accessToken"), then a
falsiness test. -/
def hasAccessToken (token_data : Json) : Bool :=
  truthyOpt (jsonDictGet token_data "access_token") ||
    truthyOpt (jsonDictGet token_data "accessToken")

/-- The session id of start_session: session_data.get("sessionId"), kept
only when truthy (the code tests `if not session_id`). -/
def getSessionId (session_data : Json) : Option Json :=
  match jsonDictGet session_data "sessionId" with
  | some v => if truthy v then some v else none
  | none => none

/-- The extracted media credentials of a join payload. -/
structure Creds where
  token : String
  livekitUrl : String
deriving Repr, DecidableEq

/-- The error message of the extraction-failure response. -/
def notFoundMsg : String := "Could not find LiveKit credentials in response"

/-- The credential check at the end of start_session: run the extraction
and reject when either field is falsy (None, or "" which the extraction
never produces); the 500 error response carries the raw join payload as
its debug field. -/
def finalizeJoin (join_data : Json) : Except (String × Json) Creds :=
  match extract_livekit_creds join_data with
  | (some tok, some url) =>
    if tok = "" || url = "" then .error (notFoundMsg, join_data)
    else .ok ⟨tok, url⟩
  | _ => .error (notFoundMsg, join_data)

/-- The resolved configuration of one start-session request: each field is
request-body value `or` environment default, "" when both are missing. -/
structure SessionConfig where
  bootstrap_url : String
  agent_id : String
  domain_url : String
  salesforce_endpoint : String
deriving Repr, DecidableEq

/-- The validation at the top of start_session:
all([bootstrap_url, agent_id, salesforce_endpoint]). -/
def validConfig (cfg : SessionConfig) : Bool :=
  cfg.bootstrap_url ≠ "" && cfg.agent_id ≠ "" && cfg.salesforce_endpoint ≠ ""

/-- Responses of the three upstream endpoints for one request: an oracle
standing for the network. An `Except.error` is a transport failure or
non-2xx status (raise_for_status), an `Except.ok` the parsed JSON body. -/
structure Upstream where
  bootstrapResp : Except String Json
  createResp : Except String Json
  joinResp : Except String Json

/-- Successful response body of start_session (the fields the claims
mention): sessionId from the create call, the extracted url and token. -/
structure SessionSuccess where
  sessionId : Json
  livekitUrl : String
  token : String
deriving Repr, DecidableEq

/-- The handler start_session of POST /api/start-session, with the HTTP
calls replaced by the oracle: validate the configuration, then bootstrap
(get_bootstrap_token), access-token check, create (create_session),
session-id check, join (join_realtime_session), extraction. The first
component records which outbound calls were issued, in order; each HTTP
failure or missing field stops the flow at once (the except blocks return
an error response, and no retry exists anywhere). The inner required-field
checks of get_bootstrap_token, create_session and join_realtime_session
are subsumed by validConfig, which checks the same resolved values. -/
def start_session (cfg : SessionConfig) (env : Upstream) :
    List CallTag × Except String SessionSuccess :=
  if !validConfig cfg then
    ([], .error "Missing required configuration")
  else
    match env.bootstrapResp with
    | .error e => ([.bootstrap], .error e)
    | .ok token_data =>
      if !hasAccessToken token_data then
        ([.bootstrap], .error "Access token not found in bootstrap response")
      else
        match env.createResp with
        | .error e => ([.bootstrap, .create], .error e)
        | .ok session_data =>
          match getSessionId session_data with
          | none =>
            ([.bootstrap, .create], .error "Session ID not found in response")
          | some sid =>
            match env.joinResp with
            | .error e => ([.bootstrap, .create, .join], .error e)
            | .ok join_data =>
              match finalizeJoin join_data with
              | .error (msg, _) => ([.bootstrap, .create, .join], .error msg)
              | .ok creds =>
                ([.bootstrap, .create, .join],
                 .ok ⟨sid, creds.livekitUrl, creds.token⟩)

/-! Concrete values used by the examples below. -/

/-- The join payload {"room": {"token": "a.b.c", "url": "wss://x"}}. -/
def roomPayload : Json :=
  .obj [("room", .obj [("token", .str "a.b.c"), ("url", .str "wss://x")])]

/-- A join payload with no path hits whose token and URL sit three levels
deep under unrelated keys, the URL as a sibling of the token. -/
def buriedPayload : Json :=
  .obj [("a", .obj [("b", .obj [("c", .str "eyJ.eyJ.eyJ"),
                                ("d", .str "wss://fallback")])])]

/-- A fallback-only payload whose first string accepted by the JWT regex
carries a trailing newline, placed before a clean three-segment string. -/
def newlinePayload : Json :=
  .arr [.str "x.y.z\n", .str "a.b.c"]

/-- A payload with no two-period string and no wss-prefixed string
anywhere. -/
def plainPayload : Json :=
  .obj [("a", .str "hello"), ("b", .num 3), ("c", .arr [.str "w.x"])]

/-- The join payload {"token": "a..b"}. -/
def doubleDotPayload : Json :=
  .obj [("token", .str "a..b")]

/-- A valid resolved configuration for the session-flow examples. -/
def cfgEx : SessionConfig :=
  ⟨"https://host/bootstrap?agentid={AGENT_ID}", "agent-1",
   "https://domain", "https://api"⟩

/-- An oracle where all three upstream calls succeed with well-formed
bodies. -/
def envEx : Upstream :=
  ⟨.ok (.obj [("access_token", .str "tok")]),
   .ok (.obj [("sessionId", .str "sid")]),
   .ok roomPayload⟩

/-! Helper lemmas. -/

theorem splitDots_ne_nil : ∀ l : List Char, splitDots l ≠ []
  | [] => by simp [splitDots]
  | c :: rest => by
    simp only [splitDots]
    by_cases h : c = '.'
    · simp [h]
    · rw [if_neg h]
      cases hr : splitDots rest with
      | nil => simp
      | cons seg segs => simp

theorem splitDots_length : ∀ l : List Char,
    (splitDots l).length = l.count '.' + 1
  | [] => by simp [splitDots]
  | c :: rest => by
    simp only [splitDots]
    by_cases h : c = '.'
    · subst h
      simp [List.count_cons, splitDots_length rest]
    · rw [if_neg h]
      cases hr : splitDots rest with
      | nil => exact absurd hr (splitDots_ne_nil rest)
      | cons seg segs =>
        have hlen := splitDots_length rest
        rw [hr] at hlen
        simp only [List.length_cons] at hlen ⊢
        rw [List.count_cons]
        simp [h, hlen]

theorem strictJwtShapeL_count {l : List Char} (h : strictJwtShapeL l = true) :
    l.count '.' = 2 := by
  have hlen := splitDots_length l
  unfold strictJwtShapeL at h
  split at h
  · rename_i a b c heq
    rw [heq] at hlen
    simp at hlen
    omega
  · exact absurd h (by simp)

theorem pyJwtMatchL_count {l : List Char} (h : pyJwtMatchL l = true) :
    l.count '.' = 2 := by
  unfold pyJwtMatchL at h
  rw [Bool.or_eq_true] at h
  rcases h with h | h
  · exact strictJwtShapeL_count h
  · split at h
    · rename_i c heq
      rw [Bool.and_eq_true] at h
      obtain ⟨hc, hshape⟩ := h
      have hc' : c = '\n' := by simpa using hc
      have hne : l ≠ [] := by
        intro hl
        rw [hl] at heq
        simp at heq
      have hconcat := List.dropLast_concat_getLast hne
      have hlast : l.getLast hne = c := by
        have hg := List.getLast?_eq_getLast l hne
        rw [heq] at hg
        exact (Option.some_inj.mp hg).symm
      have hcount := strictJwtShapeL_count hshape
      have : l.count '.' = (l.dropLast ++ [l.getLast hne]).count '.' := by
        rw [hconcat]
      rw [this, List.count_append, hcount, hlast, hc']
      simp [List.count_cons]
    · exact absurd h (by simp)

theorem pyJwtMatch_dotCount {s : String} (h : pyJwtMatch s = true) :
    dotCount s = 2 :=
  pyJwtMatchL_count h

mutual
theorem find_first_jwt_eq : ∀ j : Json,
    find_first_jwt j = (jsonStrings j).find? pyJwtMatch
  | .null => by simp [find_first_jwt, jsonStrings]
  | .bool b => by simp [find_first_jwt, jsonStrings]
  | .num n => by simp [find_first_jwt, jsonStrings]
  | .str s => by
    cases h : pyJwtMatch s <;>
      simp [find_first_jwt, jsonStrings, List.find?, h]
  | .arr es => by
    simp only [find_first_jwt, jsonStrings]
    exact find_first_jwt_list_eq es
  | .obj fs => by
    simp only [find_first_jwt, jsonStrings]
    exact find_first_jwt_fields_eq fs

theorem find_first_jwt_fields_eq : ∀ fs : List (String × Json),
    find_first_jwt_fields fs = (jsonStringsFields fs).find? pyJwtMatch
  | [] => by simp [find_first_jwt_fields, jsonStringsFields]
  | (k, v) :: rest => by
    simp only [find_first_jwt_fields, jsonStringsFields, List.find?_append]
    rw [find_first_jwt_eq v, find_first_jwt_fields_eq rest]
    cases (jsonStrings v).find? pyJwtMatch <;> simp [Option.or]

theorem find_first_jwt_list_eq : ∀ es : List Json,
    find_first_jwt_list es = (jsonStringsList es).find? pyJwtMatch
  | [] => by simp [find_first_jwt_list, jsonStringsList]
  | v :: rest => by
    simp only [find_first_jwt_list, jsonStringsList, List.find?_append]
    rw [find_first_jwt_eq v, find_first_jwt_list_eq rest]
    cases (jsonStrings v).find? pyJwtMatch <;> simp [Option.or]
end

mutual
theorem find_first_wss_eq : ∀ j : Json,
    find_first_wss j = (jsonStrings j).find? (fun s => pyStartsWith s "wss://")
  | .null => by simp [find_first_wss, jsonStrings]
  | .bool b => by simp [find_first_wss, jsonStrings]
  | .num n => by simp [find_first_wss, jsonStrings]
  | .str s => by
    cases h : pyStartsWith s "wss://" <;>
      simp [find_first_wss, jsonStrings, List.find?, h]
  | .arr es => by
    simp only [find_first_wss, jsonStrings]
    exact find_first_wss_list_eq es
  | .obj fs => by
    simp only [find_first_wss, jsonStrings]
    exact find_first_wss_fields_eq fs

theorem find_first_wss_fields_eq : ∀ fs : List (String × Json),
    find_first_wss_fields fs =
      (jsonStringsFields fs).find? (fun s => pyStartsWith s "wss://")
  | [] => by simp [find_first_wss_fields, jsonStringsFields]
  | (k, v) :: rest => by
    simp only [find_first_wss_fields, jsonStringsFields, List.find?_append]
    rw [find_first_wss_eq v, find_first_wss_fields_eq rest]
    cases (jsonStrings v).find? (fun s => pyStartsWith s "wss://") <;>
      simp [Option.or]

theorem find_first_wss_list_eq : ∀ es : List Json,
    find_first_wss_list es =
      (jsonStringsList es).find? (fun s => pyStartsWith s "wss://")
  | [] => by simp [find_first_wss_list, jsonStringsList]
  | v :: rest => by
    simp only [find_first_wss_list, jsonStringsList, List.find?_append]
    rw [find_first_wss_eq v, find_first_wss_list_eq rest]
    cases (jsonStrings v).find? (fun s => pyStartsWith s "wss://") <;>
      simp [Option.or]
end

theorem firstTokenByPaths_eq (j : Json) : ∀ ps : List String,
    firstTokenByPaths j ps =
      (ps.find? (fun p => (tokenAtPath j p).isSome)).bind (tokenAtPath j)
  | [] => by simp [firstTokenByPaths]
  | p :: rest => by
    simp only [firstTokenByPaths]
    cases h : tokenAtPath j p with
    | some t =>
      rw [List.find?_cons_of_pos _ (by simp [h])]
      simp [h]
    | none =>
      rw [List.find?_cons_of_neg _ (by simp [h])]
      exact firstTokenByPaths_eq j rest

theorem firstUrlByPaths_eq (j : Json) : ∀ ps : List String,
    firstUrlByPaths j ps =
      (ps.find? (fun p => (urlAtPath j p).isSome)).bind (urlAtPath j)
  | [] => by simp [firstUrlByPaths]
  | p :: rest => by
    simp only [firstUrlByPaths]
    cases h : urlAtPath j p with
    | some u =>
      rw [List.find?_cons_of_pos _ (by simp [h])]
      simp [h]
    | none =>
      rw [List.find?_cons_of_neg _ (by simp [h])]
      exact firstUrlByPaths_eq j rest

theorem dictGet_strings_sub :
    ∀ (fs : List (String × Json)) (key : String) (v : Json),
      dictGet fs key = some v → ∀ s ∈ jsonStrings v, s ∈ jsonStringsFields fs
  | [], _, _ => by simp [dictGet]
  | (k, w) :: rest, key, v => by
    simp only [dictGet]
    by_cases h : k = key
    · rw [if_pos h]
      intro hv s hs
      obtain rfl : w = v := Option.some_inj.mp hv
      simp only [jsonStringsFields, List.mem_append]
      exact Or.inl hs
    · rw [if_neg h]
      intro hv s hs
      simp only [jsonStringsFields, List.mem_append]
      exact Or.inr (dictGet_strings_sub rest key v hv s hs)

theorem get_by_path_keys_str_mem :
    ∀ (keys : List String) (j : Json) (s : String),
      get_by_path_keys j keys = some (.str s) → s ∈ jsonStrings j
  | [], j, s => by
    intro h
    simp only [get_by_path_keys] at h
    obtain rfl : j = .str s := Option.some_inj.mp h
    simp [jsonStrings]
  | k :: rest, j, s => by
    intro h
    match j with
    | .null | .bool _ | .num _ | .str _ | .arr _ =>
      simp [get_by_path_keys] at h
    | .obj fields =>
      simp only [get_by_path_keys] at h
      cases hd : dictGet fields k with
      | none => rw [hd] at h; exact absurd h (by simp)
      | some v =>
        rw [hd] at h
        have hmem := get_by_path_keys_str_mem rest v s h
        exact dictGet_strings_sub fields k v hd s hmem

theorem tokenAtPath_none {j : Json} (p : String)
    (h : ∀ s ∈ jsonStrings j, dotCount s ≠ 2) : tokenAtPath j p = none := by
  unfold tokenAtPath
  cases hg : get_by_path j p with
  | none => rfl
  | some v =>
    match v with
    | .null | .bool _ | .num _ | .arr _ | .obj _ => rfl
    | .str t =>
      have ht : t ∈ jsonStrings j := get_by_path_keys_str_mem _ j t hg
      simp [h t ht]

theorem urlAtPath_none {j : Json} (p : String)
    (h : ∀ s ∈ jsonStrings j, pyStartsWith s "wss://" = false) :
    urlAtPath j p = none := by
  unfold urlAtPath
  cases hg : get_by_path j p with
  | none => rfl
  | some v =>
    match v with
    | .null | .bool _ | .num _ | .arr _ | .obj _ => rfl
    | .str u =>
      have hu : u ∈ jsonStrings j := get_by_path_keys_str_mem _ j u hg
      simp [h u hu]

theorem firstTokenByPaths_none {j : Json}
    (h : ∀ s ∈ jsonStrings j, dotCount s ≠ 2) :
    ∀ ps : List String, firstTokenByPaths j ps = none
  | [] => rfl
  | p :: rest => by
    simp only [firstTokenByPaths, tokenAtPath_none p h]
    exact firstTokenByPaths_none h rest

theorem firstUrlByPaths_none {j : Json}
    (h : ∀ s ∈ jsonStrings j, pyStartsWith s "wss://" = false) :
    ∀ ps : List String, firstUrlByPaths j ps = none
  | [] => rfl
  | p :: rest => by
    simp only [firstUrlByPaths, urlAtPath_none p h]
    exact firstUrlByPaths_none h rest

theorem drainLoop_eq : ∀ (q cmds : List Msg) (n : Nat),
    drainLoop q cmds n =
      (cmds ++ q.take (n - cmds.length), q.drop (n - cmds.length))
  | [], cmds, n => by simp [drainLoop]
  | m :: rest, cmds, n => by
    simp only [drainLoop]
    by_cases h : cmds.length < n
    · rw [if_pos h, drainLoop_eq rest (cmds ++ [m]) n]
      have h1 : n - cmds.length = n - (cmds ++ [m]).length + 1 := by
        simp only [List.length_append, List.length_cons, List.length_nil]
        omega
      rw [h1]
      simp [List.append_assoc]
    · rw [if_neg h]
      have h1 : n - cmds.length = 0 := by omega
      simp [h1]

theorem setQueue_self (st : QState) (d : String) : setQueue st d (st d) = st := by
  funext d'
  unfold setQueue
  by_cases h : d' = d
  · rw [if_pos h, h]
  · rw [if_neg h]

theorem setQueue_other (st : QState) (d d' : String) (q : List Msg)
    (h : d' ≠ d) : setQueue st d q d' = st d' := by
  unfold setQueue
  rw [if_neg h]

theorem pollWaitLoop_empty : ∀ (checks n : Nat),
    pollWaitLoop checks [] n = ([], [])
  | 0, n => rfl
  | k + 1, n => by
    simp only [pollWaitLoop, List.isEmpty_nil]
    exact pollWaitLoop_empty k n

theorem fifo_invariant : ∀ (ops : List Op) (st : QState) (d : String),
    deliveredTo d st ops ++ runOps st ops d = st d ++ enqueuedTo d ops
  | [], st, d => by simp [deliveredTo, runOps, enqueuedTo]
  | .enq d' m :: rest, st, d => by
    simp only [deliveredTo, runOps, enqueuedTo, applyOp]
    have ih := fifo_invariant rest (enqueueMsg d' m st) d
    rw [ih]
    by_cases h : d' = d
    · subst h
      simp [enqueueMsg, setQueue]
    · simp [enqueueMsg, setQueue_other st d' d _ (fun hd => h hd.symm), h]
  | .poll d' n :: rest, st, d => by
    simp only [deliveredTo, runOps, enqueuedTo, applyOp]
    have ih := fifo_invariant rest (pollDrain d' n st).2 d
    rw [List.append_assoc, ih]
    by_cases h : d' = d
    · subst h
      simp only [if_pos rfl, pollDrain, drainLoop_eq, Nat.sub_zero,
        List.nil_append, setQueue, List.length_nil, if_true]
      rw [← List.append_assoc, List.take_append_drop]
    · simp only [if_neg h, pollDrain, List.nil_append]
      rw [setQueue_other st d' d _ (fun hd => h hd.symm)]

theorem pollWaitLoop_zero : ∀ (checks : Nat) (q : List Msg),
    pollWaitLoop checks q 0 = ([], q)
  | 0, q => rfl
  | k + 1, q => by
    simp only [pollWaitLoop]
    by_cases h : q.isEmpty
    · rw [if_pos h, pollWaitLoop_zero k q]
    · rw [if_neg h, drainLoop_eq]
      simp

theorem runOps_frame : ∀ (ops : List Op) (st : QState) (B : String),
    (∀ op ∈ ops, opDevice op ≠ B) → runOps st ops B = st B
  | [], st, B => fun _ => rfl
  | op :: rest, st, B => by
    intro h
    simp only [runOps]
    rw [runOps_frame rest (applyOp st op) B
      (fun o ho => h o (List.mem_cons_of_mem op ho))]
    have hop : opDevice op ≠ B := h op (List.mem_cons_self op rest)
    match op with
    | .enq d m =>
      simp only [opDevice] at hop
      simp only [applyOp, enqueueMsg]
      exact setQueue_other st d B _ (fun hd => hop hd.symm)
    | .poll d n =>
      simp only [opDevice] at hop
      simp only [applyOp, pollDrain]
      exact setQueue_other st d B _ (fun hd => hop hd.symm)

/-! Claim theorems. -/

/-- C1: extraction selects the token by walking the dotted key-paths
room.token, room.accessToken, room.jwt, roomToken, roomJWT, token,
accessToken, jwt in that priority order and taking the value of the first
path whose value is a string with exactly two periods, and the URL by
walking endpoint, room.url, room.serverUrl, room.wss, wss, wssUrl, wsUrl,
url in that order and taking the first string value starting with
"wss://"; the payload {"room": {"token": "a.b.c", "url": "wss://x"}}
yields ("a.b.c", "wss://x") from the path pass itself, not the fallback
scan. -/
theorem c1_path_priority :
    (∀ j : Json,
      extract_livekit_creds j =
        (match (token_paths.find?
              (fun p => (tokenAtPath j p).isSome)).bind (tokenAtPath j) with
         | some t => some t
         | none => find_first_jwt j,
         match (url_paths.find?
              (fun p => (urlAtPath j p).isSome)).bind (urlAtPath j) with
         | some u => some u
         | none => find_first_wss j)) ∧
    extract_livekit_creds roomPayload = (some "a.b.c", some "wss://x") ∧
    firstTokenByPaths roomPayload token_paths = some "a.b.c" ∧
    firstUrlByPaths roomPayload url_paths = some "wss://x" := by
  refine ⟨fun j => ?_, by decide, by decide, by decide⟩
  simp only [extract_livekit_creds]
  rw [firstTokenByPaths_eq, firstUrlByPaths_eq]

/-- C2 as stated is false on the code: with no path hits, the fallback
accepts "x.y.z\n" — the regex end-anchor also matches just before one
final newline — and so skips "a.b.c", the first string of the claimed
three-non-empty-base64url-segment shape. -/
theorem c2_counterexample :
    extract_livekit_creds newlinePayload = (some "x.y.z\n", none) ∧
    strictJwtShape "x.y.z\n" = false ∧
    strictJwtShape "a.b.c" = true := by
  refine ⟨by decide, by decide, by decide⟩

/-- C2 amended: when no prioritized key-path yields a token (respectively
URL), extraction falls back to the depth-first document-order scan of the
whole structure: the token is the first string anywhere the JWT regex
accepts — three non-empty runs of URL-safe base64 characters separated by
periods, optionally followed by a single trailing newline which the regex
end-anchor tolerates — and the URL is the first string anywhere starting
with "wss://". -/
theorem c2_fallback_scan (j : Json)
    (htok : firstTokenByPaths j token_paths = none)
    (hurl : firstUrlByPaths j url_paths = none) :
    extract_livekit_creds j =
      ((jsonStrings j).find? pyJwtMatch,
       (jsonStrings j).find? (fun s => pyStartsWith s "wss://")) := by
  simp only [extract_livekit_creds, htok, hurl]
  rw [find_first_jwt_eq, find_first_wss_eq]

/-- Concrete instance of the amended C2: the buried payload has no path
hits, and the fallback finds the token three levels deep and the sibling
URL. -/
theorem c2_fallback_scan_witness :
    firstTokenByPaths buriedPayload token_paths = none ∧
    firstUrlByPaths buriedPayload url_paths = none ∧
    extract_livekit_creds buriedPayload =
      ((jsonStrings buriedPayload).find? pyJwtMatch,
       (jsonStrings buriedPayload).find? (fun s => pyStartsWith s "wss://")) ∧
    (jsonStrings buriedPayload).find? pyJwtMatch = some "eyJ.eyJ.eyJ" ∧
    (jsonStrings buriedPayload).find? (fun s => pyStartsWith s "wss://") =
      some "wss://fallback" :=
  ⟨by decide, by decide, c2_fallback_scan buriedPayload (by decide) (by decide),
   by decide, by decide⟩

/-- C3: a join payload with no string of the three-segment dot-delimited
token shape (two periods) and no wss-prefixed string anywhere makes
extraction return nothing for both fields, and the session endpoint
answers with the error response carrying the raw join payload instead of
partial credentials. -/
theorem c3_creds_not_found (jd : Json)
    (h : ∀ s ∈ jsonStrings jd,
      dotCount s ≠ 2 ∧ pyStartsWith s "wss://" = false) :
    extract_livekit_creds jd = (none, none) ∧
    finalizeJoin jd = .error (notFoundMsg, jd) := by
  have htok : ∀ s ∈ jsonStrings jd, dotCount s ≠ 2 := fun s hs => (h s hs).1
  have hurl : ∀ s ∈ jsonStrings jd, pyStartsWith s "wss://" = false :=
    fun s hs => (h s hs).2
  have h1 : firstTokenByPaths jd token_paths = none :=
    firstTokenByPaths_none htok _
  have h2 : firstUrlByPaths jd url_paths = none :=
    firstUrlByPaths_none hurl _
  have h3 : find_first_jwt jd = none := by
    rw [find_first_jwt_eq, List.find?_eq_none]
    intro s hs hmatch
    exact htok s hs (pyJwtMatch_dotCount hmatch)
  have h4 : find_first_wss jd = none := by
    rw [find_first_wss_eq, List.find?_eq_none]
    intro s hs hw
    rw [hurl s hs] at hw
    exact absurd hw (by simp)
  have hex : extract_livekit_creds jd = (none, none) := by
    simp only [extract_livekit_creds, h1, h2, h3, h4]
  refine ⟨hex, ?_⟩
  unfold finalizeJoin
  rw [hex]

/-- Concrete instance of C3: a payload with only harmless strings fails
extraction and produces the debug-carrying error. -/
theorem c3_creds_not_found_witness :
    (∀ s ∈ jsonStrings plainPayload,
      dotCount s ≠ 2 ∧ pyStartsWith s "wss://" = false) ∧
    finalizeJoin plainPayload = .error (notFoundMsg, plainPayload) :=
  ⟨by decide, (c3_creds_not_found plainPayload (by decide)).2⟩

/-- C10: the path pass and the fallback scan apply different token-shape
tests: the payload {"token": "a..b"} yields token "a..b" through the path
pass because its period count is exactly two, while the fallback regex
(which demands non-empty base64url segments) rejects that same string. -/
theorem c10_shape_tests_differ :
    (extract_livekit_creds doubleDotPayload).1 = some "a..b" ∧
    firstTokenByPaths doubleDotPayload token_paths = some "a..b" ∧
    dotCount "a..b" = 2 ∧
    pyJwtMatch "a..b" = false ∧
    strictJwtShape "a..b" = false := by
  refine ⟨by decide, by decide, by decide, by decide, by decide⟩

/-- C4: within one device queue, delivery order equals enqueue order over
every interleaving of enqueue and poll operations: from the initial
state, the messages any operation sequence delivers for a device followed
by what remains queued there are exactly the messages enqueued for it,
in order; in particular enqueuing "a" then "b" and polling twice with
max 1 returns "a" from the first poll and "b" from the second. -/
theorem c4_fifo_order :
    (∀ (ops : List Op) (d : String),
      deliveredTo d qInit ops ++ runOps qInit ops d = enqueuedTo d ops) ∧
    (pollDrain "dev" 1
        (enqueueMsg "dev" ⟨"b", none⟩
          (enqueueMsg "dev" ⟨"a", none⟩ qInit))).1 = [⟨"a", none⟩] ∧
    (pollDrain "dev" 1
        (pollDrain "dev" 1
          (enqueueMsg "dev" ⟨"b", none⟩
            (enqueueMsg "dev" ⟨"a", none⟩ qInit))).2).1 = [⟨"b", none⟩] := by
  refine ⟨fun ops d => ?_, by decide, by decide⟩
  have h := fifo_invariant ops qInit d
  simpa [qInit] using h

/-- C5 as stated is false on the code: the command " " is non-empty, yet
the handler rejects it with the ValidationError response, because it
strips whitespace before the emptiness test (and on that error no queue
is modified). -/
theorem c5_counterexample :
    (enqueue_command qInit (some "dev") (some " ") none).1 =
      .error "Missing 'command'" ∧
    (" " : String) ≠ "" ∧
    (enqueue_command qInit (some "dev") (some " ") none).2 = qInit :=
  ⟨rfl, by decide, rfl⟩

/-- C5 amended: the enqueue handler strips surrounding whitespace from
the command; it fails with the ValidationError response if and only if
the stripped command is empty — i.e. the command was empty or
whitespace-only — and on that error no queue is modified; otherwise it
appends {type: stripped command, payload} at the tail of the normalized
device's queue (creating the queue if absent), leaves every other queue
unchanged, and returns the new queue depth. -/
theorem c5_enqueue_spec (st : QState) (dRaw : Option String) (c : String)
    (p : Option Json) :
    (pyStrip c = "" →
      enqueue_command st dRaw (some c) p = (.error "Missing 'command'", st)) ∧
    (pyStrip c ≠ "" →
      enqueue_command st dRaw (some c) p =
        (.ok ⟨normDeviceId dRaw, ⟨pyStrip c, p⟩,
              (st (normDeviceId dRaw)).length + 1⟩,
         setQueue st (normDeviceId dRaw)
           (st (normDeviceId dRaw) ++ [⟨pyStrip c, p⟩]))) := by
  have hcmd : pyStrip (pyOrStr (some c) "") = pyStrip c := by
    simp only [pyOrStr]
    by_cases h : c = ""
    · rw [if_pos h, h]
    · rw [if_neg h]
  constructor
  · intro h
    simp only [enqueue_command, hcmd, h, eq_self_iff_true, if_true]
  · intro h
    simp only [enqueue_command, hcmd, if_neg h]
    simp [List.length_append]

/-- Concrete instance of the amended C5: a clean command is appended and
the depth of the fresh queue is one. -/
theorem c5_enqueue_spec_witness :
    pyStrip "end" ≠ "" ∧
    (enqueue_command qInit (some "dev") (some "end") none).1 =
      .ok ⟨"dev", ⟨"end", none⟩, 1⟩ := by
  refine ⟨by decide, ?_⟩
  have h := (c5_enqueue_spec qInit (some "dev") "end" none).2 (by decide)
  rw [h]
  rfl

/-- C6: a poll against a non-empty queue removes the first
min(maxItems, length) messages from the head and returns them immediately
whatever wait is, leaving exactly the remaining suffix; a poll against an
empty queue with wait false returns no commands immediately and leaves
the state unchanged. -/
theorem c6_poll_immediate (st : QState) (dRaw : Option String) (n : Nat)
    (wait : Bool) (checks : Nat) :
    (st (normDeviceId dRaw) ≠ [] →
      poll_commands st dRaw n wait checks =
        (normDeviceId dRaw, (st (normDeviceId dRaw)).take n,
         setQueue st (normDeviceId dRaw) ((st (normDeviceId dRaw)).drop n))) ∧
    (((st (normDeviceId dRaw)).take n).length =
      min n (st (normDeviceId dRaw)).length) ∧
    (st (normDeviceId dRaw) = [] →
      poll_commands st dRaw n false checks = (normDeviceId dRaw, [], st)) := by
  refine ⟨?_, List.length_take _ _, ?_⟩
  · intro h
    simp only [poll_commands, drainLoop_eq, Nat.sub_zero, List.length_nil,
      List.nil_append]
    by_cases hn : n = 0
    · subst hn
      simp only [List.take_zero, List.drop_zero, List.isEmpty_nil,
        Bool.not_true, Bool.false_or]
      cases wait
      · simp
      · simp [pollWaitLoop_zero]
    · have htake : (st (normDeviceId dRaw)).take n ≠ [] := by
        intro hteq
        rcases List.take_eq_nil_iff.mp hteq with h0 | h0
        · exact hn h0
        · exact h h0
      have hie : ((st (normDeviceId dRaw)).take n).isEmpty = false :=
        List.isEmpty_eq_false.mpr htake
      simp [hie]
  · intro h
    simp only [poll_commands, h, drainLoop]
    simp only [List.isEmpty_nil, Bool.not_true, Bool.not_false, Bool.false_or,
      if_true]
    rw [show setQueue st (normDeviceId dRaw) [] =
          setQueue st (normDeviceId dRaw) (st (normDeviceId dRaw)) from by
        rw [h],
      setQueue_self]

/-- Concrete instance of C6: polling a one-element queue returns that
element at once. -/
theorem c6_poll_immediate_witness :
    (enqueueMsg "dev" ⟨"a", none⟩ qInit) "dev" ≠ [] ∧
    (poll_commands (enqueueMsg "dev" ⟨"a", none⟩ qInit) (some "dev")
        5 true 3).2.1 = [⟨"a", none⟩] := by
  refine ⟨by decide, ?_⟩
  have h := (c6_poll_immediate (enqueueMsg "dev" ⟨"a", none⟩ qInit)
    (some "dev") 5 true 3).1 (by decide)
  rw [h]
  decide

/-- C7: a poll against an empty queue with wait true and a finite timeout,
during which nothing is enqueued, terminates — the wait is a loop over the
bounded number of interval checks the timeout allows, total for every such
bound — and returns the empty command list with the queues unchanged. -/
theorem c7_poll_timeout (st : QState) (dRaw : Option String)
    (n checks : Nat) (h : st (normDeviceId dRaw) = []) :
    poll_commands st dRaw n true checks = (normDeviceId dRaw, [], st) := by
  simp only [poll_commands, h, drainLoop, List.isEmpty_nil, Bool.not_true,
    Bool.or_self, Bool.false_eq_true, if_false, pollWaitLoop_empty]
  rw [show setQueue st (normDeviceId dRaw) [] =
        setQueue st (normDeviceId dRaw) (st (normDeviceId dRaw)) from by
      rw [h],
    setQueue_self]

/-- Concrete instance of C7: a long-poll on an untouched queue with ten
checks ends with no commands. -/
theorem c7_poll_timeout_witness :
    qInit (normDeviceId (some "dev")) = [] ∧
    poll_commands qInit (some "dev") 5 true 10 =
      (normDeviceId (some "dev"), [], qInit) :=
  ⟨rfl, c7_poll_timeout qInit (some "dev") 5 10 rfl⟩

/-- C8: operations on device A leave device B's queue untouched: an
enqueue for A changes nothing at B, draining A changes nothing at B and
returns only A's head messages, a poll against B after an enqueue for A
returns exactly what it would have before, and any sequence of operations
all addressing A leaves B's queue as it was. -/
theorem c8_device_isolation (st : QState) (A B : String) (m : Msg) (n : Nat)
    (hAB : A ≠ B) :
    enqueueMsg A m st B = st B ∧
    (pollDrain A n st).1 = (st A).take n ∧
    (pollDrain A n st).2 B = st B ∧
    (pollDrain B n (enqueueMsg A m st)).1 = (pollDrain B n st).1 ∧
    (∀ ops : List Op, (∀ op ∈ ops, opDevice op = A) →
      runOps st ops B = st B) := by
  have hBA : B ≠ A := fun hb => hAB hb.symm
  have henq : enqueueMsg A m st B = st B :=
    setQueue_other st A B _ hBA
  refine ⟨henq, ?_, ?_, ?_, ?_⟩
  · simp [pollDrain, drainLoop_eq]
  · exact setQueue_other st A B _ hBA
  · simp [pollDrain, henq]
  · intro ops hops
    exact runOps_frame ops st B (fun op ho => by rw [hops op ho]; exact hAB)

/-- Concrete instance of C8: an enqueue for device a leaves device b's
queue empty. -/
theorem c8_device_isolation_witness :
    ("a" : String) ≠ "b" ∧
    enqueueMsg "a" ⟨"end", none⟩ qInit "b" = qInit "b" :=
  ⟨by decide, (c8_device_isolation qInit "a" "b" ⟨"end", none⟩ 1
    (by decide)).1⟩

/-- C9: with a valid configuration, one credential acquisition issues its
outbound calls in the fixed order bootstrap, create, join and never
re-issues a call: the trace is always [bootstrap], [bootstrap, create] or
[bootstrap, create, join]; a successful result means exactly those three
calls in order; join is issued only once the create call has succeeded
and yielded a (truthy) session id; a bootstrap failure stops the flow
after the first call with that error, and a create failure after a good
bootstrap stops it with no third call. -/
theorem c9_call_order (cfg : SessionConfig) (env : Upstream)
    (hv : validConfig cfg = true) :
    ((start_session cfg env).1 = [.bootstrap] ∨
     (start_session cfg env).1 = [.bootstrap, .create] ∨
     (start_session cfg env).1 = [.bootstrap, .create, .join]) ∧
    ((start_session cfg env).2.isOk = true →
      (start_session cfg env).1 = [.bootstrap, .create, .join]) ∧
    (CallTag.join ∈ (start_session cfg env).1 →
      ∃ sd sid, env.createResp = Except.ok sd ∧ getSessionId sd = some sid) ∧
    (∀ e, env.bootstrapResp = .error e →
      (start_session cfg env).1 = [.bootstrap] ∧
      (start_session cfg env).2 = .error e) ∧
    (∀ td e, env.bootstrapResp = .ok td → env.createResp = .error e →
      (start_session cfg env).1 = [.bootstrap] ∨
      ((start_session cfg env).1 = [.bootstrap, .create] ∧
       (start_session cfg env).2 = .error e)) := by
  obtain ⟨hb, hc, hj⟩ := env
  cases hb with
  | error e =>
    refine ⟨Or.inl ?_, ?_, ?_, ?_, ?_⟩ <;>
      simp [start_session, hv, Except.isOk, Except.toBool]
  | ok td =>
    cases htok : hasAccessToken td with
    | false =>
      refine ⟨Or.inl ?_, ?_, ?_, ?_, ?_⟩ <;>
        simp [start_session, hv, htok, Except.isOk, Except.toBool]
    | true =>
      cases hc with
      | error e =>
        refine ⟨Or.inr (Or.inl ?_), ?_, ?_, ?_, ?_⟩ <;>
          simp [start_session, hv, htok, Except.isOk, Except.toBool]
      | ok sd =>
        cases hsid : getSessionId sd with
        | none =>
          refine ⟨Or.inr (Or.inl ?_), ?_, ?_, ?_, ?_⟩ <;>
            simp [start_session, hv, htok, hsid, Except.isOk, Except.toBool]
        | some sid =>
          cases hj with
          | error e =>
            refine ⟨Or.inr (Or.inr ?_), ?_,
              fun _ => ⟨sd, sid, rfl, hsid⟩, ?_, ?_⟩ <;>
              simp [start_session, hv, htok, hsid, Except.isOk, Except.toBool]
          | ok jd =>
            cases hfin : finalizeJoin jd with
            | error pr =>
              obtain ⟨msg, dbg⟩ := pr
              refine ⟨Or.inr (Or.inr ?_), ?_,
                fun _ => ⟨sd, sid, rfl, hsid⟩, ?_, ?_⟩ <;>
                simp [start_session, hv, htok, hsid, hfin, Except.isOk,
                  Except.toBool]
            | ok creds =>
              refine ⟨Or.inr (Or.inr ?_), ?_,
                fun _ => ⟨sd, sid, rfl, hsid⟩, ?_, ?_⟩ <;>
                simp [start_session, hv, htok, hsid, hfin, Except.isOk,
                  Except.toBool]

/-- Concrete instance of C9: with all three upstream calls succeeding,
the flow issues exactly bootstrap, create, join in order and returns a
successful bundle. -/
theorem c9_call_order_witness :
    validConfig cfgEx = true ∧
    (start_session cfgEx envEx).2.isOk = true ∧
    (start_session cfgEx envEx).1 = [.bootstrap, .create, .join] := by
  refine ⟨by decide, by decide, ?_⟩
  exact (c9_call_order cfgEx envEx (by decide)).2.1 (by decide)

end AgentVoice
